import Mathlib

/-!
Verification of the Open Collective transactions synchronization job
(`src/main.py`).  The job drops and recreates a sqlite `transactions`
table, fetches remote transactions, diffs them against the stored ones
by `id`, persists the new ones and announces them through a Discord
webhook.  The embedding below translates each Python function into a
Lean definition over explicit state; external effects (the GraphQL
fetch, the webhook send) become parameters of the run function.
-/

/-- A transaction record, the sole entity of the data model
(`id`, `created_at`, `from_account`, `amount_cents`).  Timestamps are
modelled as unix seconds (`Int`), a monotone encoding of the source's
timezone-aware datetimes. -/
structure Transaction where
  id : String
  created_at : Int
  from_account : String
  amount_cents : Int
deriving DecidableEq, Repr

/-- The sqlite database behind `SQL_CONNECTION`.  `table = none` models a
database in which the `transactions` table does not exist (a fresh
`financials.db`); `table = some rows` models the table holding `rows`. -/
structure Ledger where
  table : Option (List Transaction)
deriving DecidableEq, Repr

/-- Embeds `drop_transaction_table`: it executes `DROP TABLE transactions`
with no `IF EXISTS` guard, so sqlite raises `OperationalError` when the
table is absent; otherwise the table is removed. -/
def drop_transaction_table (db : Ledger) : Except String Ledger :=
  match db.table with
  | none => Except.error "no such table: transactions"
  | some _ => Except.ok (Ledger.mk none)

/-- Embeds `setup_transaction_table`: `CREATE TABLE IF NOT EXISTS
transactions (id TEXT PRIMARY KEY, ...)` — creates an empty table when
absent and leaves an existing table untouched. -/
def setup_transaction_table (db : Ledger) : Ledger :=
  match db.table with
  | none => Ledger.mk (some [])
  | some rows => Ledger.mk (some rows)

/-- Embeds `setup_database`, which only calls `setup_transaction_table`. -/
def setup_database (db : Ledger) : Ledger :=
  setup_transaction_table db

/-- Embeds `get_known_transactions`: `SELECT * FROM transactions WHERE
created_at > ?` with the lookback cutoff as parameter; errors when the
table does not exist. -/
def get_known_transactions (lookback_time : Int) (db : Ledger) :
    Except String (List Transaction) :=
  match db.table with
  | none => Except.error "no such table: transactions"
  | some rows => Except.ok (rows.filter (fun t => decide (lookback_time < t.created_at)))

/-- Embeds `save_transactions`: `DataFrame.to_sql("transactions", ...,
if_exists="append", method="multi")` against the `id TEXT PRIMARY KEY`
schema.  pandas wraps the insert in a transaction that is rolled back on
failure, and sqlite rejects any row whose `id` equals an already stored
id or the id of another row of the same statement, so the call appends
the whole batch when all ids are fresh and pairwise distinct, and
otherwise raises `IntegrityError` having written nothing. -/
def save_transactions (ts : List Transaction) (db : Ledger) : Except String Ledger :=
  match db.table with
  | none => Except.error "no such table: transactions"
  | some rows =>
    if (ts.map Transaction.id).Nodup ∧ ∀ t ∈ ts, t.id ∉ rows.map Transaction.id then
      Except.ok (Ledger.mk (some (rows ++ ts)))
    else
      Except.error "IntegrityError: UNIQUE constraint failed: transactions.id"

/-- Embeds `find_new_transactions` at the row level: if `left` is empty
return an empty frame, else keep the rows of `left` whose `id` is not
among the ids of `right` (`left[~left["id"].isin(right["id"])]`). -/
def find_new_transactions (left right : List Transaction) : List Transaction :=
  if left.isEmpty then []
  else left.filter (fun t => !((right.map Transaction.id).contains t.id))

/-- Embeds the Python `f"{cents / 100:.2f}"` dollar rendering as exact
decimal formatting of a minor-unit amount. -/
def formatDollars (cents : Int) : String :=
  let sign := if cents < 0 then "-" else ""
  let a := cents.natAbs
  sign ++ toString (a / 100) ++ "." ++ (if a % 100 < 10 then "0" else "") ++ toString (a % 100)

/-- Embeds the message line built for one row inside
`send_discord_transactions`; `donation_time` is the floored unix
timestamp, which is `created_at` itself in this encoding. -/
def format_line (t : Transaction) : String :=
  "Thank you **" ++ t.from_account ++ "** for your contribution of **$" ++
    formatDollars t.amount_cents ++ "**, <t:" ++ toString t.created_at ++
    ":R>! <:love:1104682659537485844>\n"

/-- The order in which `send_discord_transactions` iterates the rows:
`transactions[::-1].iterrows()`, i.e. the reverse of the given order. -/
def notification_order (ts : List Transaction) : List Transaction :=
  ts.reverse

/-- The single outbound message accumulated by the loop of
`send_discord_transactions` (`message += f"..."` over the reversed rows). -/
def discord_message (ts : List Transaction) : String :=
  (notification_order ts).foldl (fun acc t => acc ++ format_line t) ""

/-- Embeds `send_discord_transactions`.  The webhook delivery
(`webhook.send`) is an external effect, passed in as `webhookSend`; the
function returns without sending when the message is empty and raises
when the message reaches the 2000 character platform cap. -/
def send_discord_transactions (webhookSend : String → Except String Unit)
    (ts : List Transaction) : Except String Unit :=
  if (discord_message ts).length < 1 then Except.ok ()
  else if 2000 ≤ (discord_message ts).length then Except.error "Edge case, too many donors!"
  else webhookSend (discord_message ts)

/-- Embeds `main`.  `remote` is the frame returned by
`get_open_collective_transactions` for the configured lookback window
(the fetch itself is external I/O), `webhookSend` the webhook delivery.
The result pairs the run's outcome — the final status line, or the
raised error — with the final database state; a raised error leaves the
database as it was at the moment of the raise. -/
def main_run (remote : List Transaction) (lookback_time : Int)
    (webhookSend : String → Except String Unit) (db : Ledger) :
    Except String String × Ledger :=
  match drop_transaction_table db with
  | Except.error e => (Except.error e, db)
  | Except.ok db1 =>
    let db2 := setup_database db1
    match get_known_transactions lookback_time db2 with
    | Except.error e => (Except.error e, db2)
    | Except.ok known =>
      let new_transactions := find_new_transactions remote known
      if new_transactions.isEmpty then
        (Except.ok "No new transactions to send.", db2)
      else
        match save_transactions new_transactions db2 with
        | Except.error e => (Except.error e, db2)
        | Except.ok db3 =>
          match send_discord_transactions webhookSend new_transactions with
          | Except.error e => (Except.error e, db3)
          | Except.ok _ =>
            (Except.ok ("Saved and sent " ++ toString new_transactions.length ++
              " new transactions."), db3)

deriving instance DecidableEq for Except

/-! Helper lemmas shared by the claim theorems. -/

/-- The Differ is the plain filter keeping the rows of `remote` whose id
is not among the ids of `known`. -/
theorem find_new_eq_filter (remote known : List Transaction) :
    find_new_transactions remote known
      = remote.filter (fun t => decide (t.id ∉ known.map Transaction.id)) := by
  unfold find_new_transactions
  rcases remote with _ | ⟨t, ts⟩
  · simp
  · rw [if_neg (by simp)]
    apply List.filter_congr
    intro a _
    cases h : ((known.map Transaction.id).elem a.id) with
    | false =>
      have hm : a.id ∉ known.map Transaction.id := by
        intro hm
        rw [List.elem_iff.2 hm] at h
        exact absurd h (by simp)
      simp [List.contains, h, hm]
    | true =>
      have hm : a.id ∈ known.map Transaction.id := List.elem_iff.1 h
      simp [List.contains, h, hm]

/-- Against an empty known set the Differ keeps every remote row. -/
theorem find_new_nil_known (remote : List Transaction) :
    find_new_transactions remote [] = remote := by
  rw [find_new_eq_filter]
  simp

/-- Filtering by a predicate implied by `p` does not change the `p`-count. -/
theorem countP_filter_eq_of_imp {α : Type} (p q : α → Bool) (l : List α)
    (h : ∀ a ∈ l, p a = true → q a = true) :
    (l.filter q).countP p = l.countP p := by
  rw [List.countP_filter]
  induction l with
  | nil => rfl
  | cons a as ih =>
    have ih' := ih (fun x hx hpx => h x (List.mem_cons_of_mem a hx) hpx)
    by_cases hp : p a = true
    · have hq := h a (List.mem_cons_self a as) hp
      simp [List.countP_cons, hp, hq, ih']
    · have hp' : p a = false := by simpa using hp
      simp [List.countP_cons, hp', ih']

/-- Every notification line is nonempty. -/
theorem format_line_length_pos (t : Transaction) : 1 ≤ (format_line t).length := by
  unfold format_line
  simp only [String.length_append]
  have h : ("Thank you **" : String).length = 12 := rfl
  omega

/-- Appending lines in the message loop never shrinks the accumulator. -/
theorem message_foldl_length_le (l : List Transaction) (acc : String) :
    acc.length ≤ (l.foldl (fun a t => a ++ format_line t) acc).length := by
  induction l generalizing acc with
  | nil => simp
  | cons t ts ih =>
    refine le_trans ?_ (ih (acc ++ format_line t))
    rw [String.length_append]
    omega

/-- A nonempty batch always yields a nonempty outbound message. -/
theorem discord_message_length_pos (ts : List Transaction) (hne : ts ≠ []) :
    1 ≤ (discord_message ts).length := by
  unfold discord_message notification_order
  rcases h : ts.reverse with _ | ⟨t, l⟩
  · exact absurd (by simpa using h) hne
  · rw [List.foldl_cons]
    refine le_trans ?_ (message_foldl_length_le l ("" ++ format_line t))
    rw [String.length_append]
    have := format_line_length_pos t
    omega

/-- Under a live table, pairwise-fresh ids and a nonempty remote, the run
reaches the notification step with the ledger reset to exactly the
remote rows (the initial `DROP TABLE` erased everything older). -/
theorem main_run_after_reset (remote : List Transaction) (lookback : Int)
    (ws : String → Except String Unit) (db : Ledger) (rows0 : List Transaction)
    (hdb : db.table = some rows0)
    (hnodup : (remote.map Transaction.id).Nodup)
    (hne : remote ≠ []) :
    main_run remote lookback ws db
      = (match send_discord_transactions ws remote with
         | Except.error e => Except.error e
         | Except.ok _ => Except.ok ("Saved and sent " ++ toString remote.length ++
             " new transactions."),
         Ledger.mk (some remote)) := by
  have hdrop : drop_transaction_table db = Except.ok (Ledger.mk none) := by
    simp [drop_transaction_table, hdb]
  have h1 : setup_database (Ledger.mk none) = Ledger.mk (some []) := rfl
  have h2 : get_known_transactions lookback (Ledger.mk (some [])) = Except.ok [] := rfl
  have h3 : find_new_transactions remote [] = remote := find_new_nil_known remote
  have h4 : save_transactions remote (Ledger.mk (some [])) =
      Except.ok (Ledger.mk (some remote)) := by
    show (if (remote.map Transaction.id).Nodup ∧
            ∀ t ∈ remote, t.id ∉ ([] : List Transaction).map Transaction.id then
          Except.ok (Ledger.mk (some ([] ++ remote)))
        else Except.error "IntegrityError: UNIQUE constraint failed: transactions.id")
        = Except.ok (Ledger.mk (some remote))
    rw [if_pos ⟨hnodup, by simp⟩, List.nil_append]
  have h5 : remote.isEmpty = false := by
    cases remote with
    | nil => exact absurd rfl hne
    | cons a as => rfl
  unfold main_run
  rw [hdrop]
  simp only [h1, h2, h3, h4, h5, Bool.false_eq_true, if_false]
  cases hs : send_discord_transactions ws remote <;> simp [hs]

/-! DataFrame-level model.  `find_new_transactions` operates on pandas
frames; the row-level definition above assumes well-formed transaction
frames.  The definitions below keep the column-lookup semantics of
`left[~left["id"].isin(right["id"])]`, needed where a frame may lack the
`id` column altogether (e.g. the empty frame `pd.DataFrame()`). -/

/-- A single DataFrame cell. -/
inductive PValue
  | str (s : String)
  | int (n : Int)
deriving DecidableEq, Repr

/-- A pandas DataFrame: named columns and rows of cells (one cell per
column in a well-formed frame). -/
structure DFrame where
  columns : List String
  rows : List (List PValue)
deriving DecidableEq, Repr

/-- Models `DataFrame.empty`: true when either axis has length zero. -/
def DFrame.empty (df : DFrame) : Bool :=
  df.rows.isEmpty || df.columns.isEmpty

/-- Models column selection `df[c]`: raises `KeyError` when `c` is not
among the columns, else returns the column's cells. -/
def DFrame.getCol (df : DFrame) (c : String) : Except String (List PValue) :=
  if df.columns.contains c then
    Except.ok (df.rows.map (fun r => r.getD (df.columns.findIdx (fun s => s == c)) (PValue.str "")))
  else
    Except.error ("KeyError: " ++ c)

/-- Embeds `find_new_transactions` at DataFrame level: the `left.empty`
test short-circuits to a fresh `pd.DataFrame()` before either frame's
`id` column is touched; otherwise `left["id"]` and `right["id"]` are
demanded (in the source's evaluation order) and the rows of `left` whose
id cell occurs among `right`'s id cells are dropped. -/
def find_new_transactions_df (left right : DFrame) : Except String DFrame :=
  if DFrame.empty left then Except.ok (DFrame.mk [] [])
  else
    match DFrame.getCol left "id" with
    | Except.error e => Except.error e
    | Except.ok lids =>
      match DFrame.getCol right "id" with
      | Except.error e => Except.error e
      | Except.ok rids =>
        Except.ok (DFrame.mk left.columns
          ((left.rows.zip lids).filterMap
            (fun p => if rids.contains p.2 then none else some p.1)))

/-! Claim theorems. -/

/-- Claim C2: for every pair of sequences `remote` and `known`, the Differ
returns exactly the subsequence of `remote` whose id does not occur among
the ids of `known`, preserving the original relative order (it is the
order-preserving filter, and a sublist of `remote`); an empty `remote`
yields an empty output for every `known`. -/
theorem differ_exact_subsequence (remote known : List Transaction) :
    find_new_transactions remote known
        = remote.filter (fun t => decide (t.id ∉ known.map Transaction.id))
      ∧ List.Sublist (find_new_transactions remote known) remote
      ∧ find_new_transactions [] known = [] :=
  ⟨find_new_eq_filter remote known,
   by rw [find_new_eq_filter]; exact List.filter_sublist remote,
   rfl⟩

/-- Claim C8: the Differ performs no deduplication among the remote
entries themselves — when an id occurs at least twice in `remote` and is
absent from `known`, at least two entries with that id survive into the
output. -/
theorem differ_keeps_duplicate_ids (remote known : List Transaction) (i : String)
    (hi : i ∉ known.map Transaction.id)
    (h2 : 2 ≤ remote.countP (fun t => t.id == i)) :
    2 ≤ (find_new_transactions remote known).countP (fun t => t.id == i) := by
  have h := countP_filter_eq_of_imp (fun t => t.id == i)
      (fun t => decide (t.id ∉ known.map Transaction.id)) remote
      (by
        intro a _ hp
        have ha : a.id = i := by simpa using hp
        simpa [ha] using hi)
  rw [find_new_eq_filter, h]
  exact h2

/-- Witness for C8 at a concrete input: remote holds two entries with
id `"a"`, known only id `"b"`; both copies survive. -/
theorem differ_keeps_duplicate_ids_witness :
    2 ≤ (find_new_transactions
        [⟨"a", 0, "A", 100⟩, ⟨"a", 5, "A", 200⟩]
        [⟨"b", 0, "B", 300⟩]).countP (fun t => t.id == "a") :=
  differ_keeps_duplicate_ids
    [⟨"a", 0, "A", 100⟩, ⟨"a", 5, "A", 200⟩]
    [⟨"b", 0, "B", 300⟩] "a" (by decide) (by decide)

/-- Claim C9: on a fresh database where the `transactions` table does not
exist, the run aborts at the initial unguarded `DROP TABLE` — for every
remote feed, lookback window and webhook behaviour the result is the
`no such table` error with the database untouched, before any
persistence or notification. -/
theorem fresh_ledger_run_aborts (remote : List Transaction) (lookback_time : Int)
    (webhookSend : String → Except String Unit) :
    main_run remote lookback_time webhookSend (Ledger.mk none)
      = (Except.error "no such table: transactions", Ledger.mk none) := rfl

/-- Claim C1 is refuted by the code: `main` drops the `transactions`
table at the start of every run, so a second run over the same remote
data re-classifies every transaction as new.  Starting from an empty
table, the first run saves and sends the single remote transaction, and
the second run — fed the first run's final database — saves and sends it
again instead of finding nothing new. -/
theorem second_run_renotifies :
    (main_run [⟨"a", 100, "Alice", 500⟩] 0 (fun _ => Except.ok ())
        (Ledger.mk (some []))).1
      = Except.ok "Saved and sent 1 new transactions."
    ∧ (main_run [⟨"a", 100, "Alice", 500⟩] 0 (fun _ => Except.ok ())
        ((main_run [⟨"a", 100, "Alice", 500⟩] 0 (fun _ => Except.ok ())
          (Ledger.mk (some []))).2)).1
      = Except.ok "Saved and sent 1 new transactions." := by decide

/-- Claim C7 is refuted by the code: with an empty Differ output the run
does report "No new transactions to send." and attempts no insert and no
notification, but the initial `DROP TABLE`/`CREATE TABLE` pair has
already erased the stored rows, so the final ledger differs from the
initial one. -/
theorem empty_diff_run_clears_ledger :
    main_run [] 0 (fun _ => Except.ok ())
        (Ledger.mk (some [⟨"a", 100, "Alice", 500⟩]))
      = (Except.ok "No new transactions to send.", Ledger.mk (some []))
    ∧ Ledger.mk (some ([] : List Transaction))
        ≠ Ledger.mk (some [⟨"a", 100, "Alice", 500⟩]) := by decide

/-- Claim C3: when the webhook delivery fails on every call, a run whose
new set is non-empty still ends with the ledger holding all the new
transactions — persistence happens strictly before the notification
attempt and is not rolled back on its failure; the run itself surfaces
an error.  (After the initial table reset the new set is exactly
`remote`, so the final table holds exactly those rows.) -/
theorem notifier_failure_keeps_ledger (remote : List Transaction)
    (lookback_time : Int) (ws : String → Except String Unit) (err : String)
    (db : Ledger) (rows0 : List Transaction)
    (hdb : db.table = some rows0)
    (hnodup : (remote.map Transaction.id).Nodup)
    (hne : remote ≠ [])
    (hws : ∀ m, ws m = Except.error err) :
    (∃ e, (main_run remote lookback_time ws db).1 = Except.error e)
    ∧ (main_run remote lookback_time ws db).2 = Ledger.mk (some remote) := by
  have hmsg := discord_message_length_pos remote hne
  have hsend : ∃ e, send_discord_transactions ws remote = Except.error e := by
    unfold send_discord_transactions
    rw [if_neg (by omega)]
    by_cases hbig : 2000 ≤ (discord_message remote).length
    · rw [if_pos hbig]
      exact ⟨_, rfl⟩
    · rw [if_neg hbig]
      exact ⟨err, hws _⟩
  obtain ⟨e, he⟩ := hsend
  rw [main_run_after_reset remote lookback_time ws db rows0 hdb hnodup hne, he]
  exact ⟨⟨e, rfl⟩, rfl⟩

/-- Witness for C3 at a concrete input: one fresh transaction, a webhook
that always fails; the run errors and the ledger holds the transaction. -/
theorem notifier_failure_keeps_ledger_witness :
    (∃ e, (main_run [⟨"a", 100, "Alice", 500⟩] 0
        (fun _ => Except.error "boom") (Ledger.mk (some []))).1 = Except.error e)
    ∧ (main_run [⟨"a", 100, "Alice", 500⟩] 0
        (fun _ => Except.error "boom") (Ledger.mk (some []))).2
      = Ledger.mk (some [⟨"a", 100, "Alice", 500⟩]) :=
  notifier_failure_keeps_ledger _ 0 _ "boom" _ [] rfl (by decide) (by decide)
    (fun _ => rfl)

/-- Claim C5: when the formatted message reaches the 2000 character cap,
the run fails with the oversize error — independently of the webhook
behaviour, so nothing is sent — and the ledger already holds the new
rows, persisted before the size check. -/
theorem oversize_message_fails_after_persist (remote : List Transaction)
    (lookback_time : Int) (ws : String → Except String Unit) (db : Ledger)
    (rows0 : List Transaction)
    (hdb : db.table = some rows0)
    (hnodup : (remote.map Transaction.id).Nodup)
    (hne : remote ≠ [])
    (hbig : 2000 ≤ (discord_message remote).length) :
    main_run remote lookback_time ws db
      = (Except.error "Edge case, too many donors!", Ledger.mk (some remote)) := by
  have hsend : send_discord_transactions ws remote
      = Except.error "Edge case, too many donors!" := by
    unfold send_discord_transactions
    rw [if_neg (by omega), if_pos hbig]
  rw [main_run_after_reset remote lookback_time ws db rows0 hdb hnodup hne, hsend]

/-- A donor name is a substring of its own line, so its length bounds the
length of a one-row message from below. -/
theorem discord_message_single_length (t : Transaction) :
    t.from_account.length ≤ (discord_message [t]).length := by
  have h : discord_message [t] = "" ++ format_line t := rfl
  rw [h]
  unfold format_line
  simp only [String.length_append]
  omega

theorem oversize_message_fails_after_persist_witness :
    main_run [⟨"big", 0, String.mk (List.replicate 2000 (Char.ofNat 97)), 500⟩] 0
        (fun _ => Except.ok ()) (Ledger.mk (some []))
      = (Except.error "Edge case, too many donors!",
         Ledger.mk (some [⟨"big", 0, String.mk (List.replicate 2000 (Char.ofNat 97)), 500⟩])) :=
  oversize_message_fails_after_persist _ 0 _ _ [] rfl (by decide) (by decide)
    (by
      have h1 : (String.mk (List.replicate 2000 (Char.ofNat 97))).length = 2000 := by
        show (List.replicate 2000 (Char.ofNat 97)).length = 2000
        rw [List.length_replicate]
      have h2 : (String.mk (List.replicate 2000 (Char.ofNat 97))).length
          ≤ (discord_message
              [⟨"big", 0, String.mk (List.replicate 2000 (Char.ofNat 97)), 500⟩]).length :=
        discord_message_single_length
          ⟨"big", 0, String.mk (List.replicate 2000 (Char.ofNat 97)), 500⟩
      omega)

/-- Claim C6: a `save_transactions` call is all-or-nothing — a successful
call appends exactly the whole batch after the untouched existing rows,
and a batch holding an id already present in the ledger makes the call
fail, so the previously stored row with that id is unchanged. -/
theorem save_rejects_duplicate_all_or_nothing (db : Ledger)
    (rows batch : List Transaction) (hdb : db.table = some rows) :
    (∀ db2, save_transactions batch db = Except.ok db2 →
        db2.table = some (rows ++ batch))
    ∧ (∀ t ∈ rows, (∃ u ∈ batch, u.id = t.id) →
        ∃ e, save_transactions batch db = Except.error e) := by
  obtain ⟨tbl⟩ := db
  have htbl : tbl = some rows := hdb
  subst htbl
  have hsave : save_transactions batch (Ledger.mk (some rows))
      = (if (batch.map Transaction.id).Nodup ∧
            ∀ t ∈ batch, t.id ∉ rows.map Transaction.id then
          Except.ok (Ledger.mk (some (rows ++ batch)))
        else Except.error "IntegrityError: UNIQUE constraint failed: transactions.id") :=
    rfl
  constructor
  · intro db2 h
    rw [hsave] at h
    by_cases hc : (batch.map Transaction.id).Nodup ∧
        ∀ t ∈ batch, t.id ∉ rows.map Transaction.id
    · rw [if_pos hc] at h
      cases h
      rfl
    · rw [if_neg hc] at h
      exact Except.noConfusion h
  · rintro t ht ⟨u, hu, huid⟩
    rw [hsave, if_neg]
    · exact ⟨_, rfl⟩
    · rintro ⟨-, hall⟩
      exact hall u hu (by rw [huid]; exact List.mem_map_of_mem Transaction.id ht)

/-- Witness for C6 at a concrete input: inserting a batch whose id `"a"`
is already stored fails with an error. -/
theorem save_rejects_duplicate_all_or_nothing_witness :
    ∃ e, save_transactions [⟨"a", 999, "Mallory", 1⟩]
        (Ledger.mk (some [⟨"a", 100, "Alice", 500⟩])) = Except.error e :=
  (save_rejects_duplicate_all_or_nothing
      (Ledger.mk (some [⟨"a", 100, "Alice", 500⟩]))
      [⟨"a", 100, "Alice", 500⟩] [⟨"a", 999, "Mallory", 1⟩] rfl).2
    ⟨"a", 100, "Alice", 500⟩ (by decide)
    ⟨⟨"a", 999, "Mallory", 1⟩, by decide, rfl⟩

/-- Claim C4 counterexample: when the Differ hands the notifier the new
set already in chronological (oldest-first) order, the emission order —
the reverse of the input — is not chronological: the newer entry's line
comes first. -/
theorem notify_order_not_chronological :
    ¬ List.Sorted (fun a b : Transaction => a.created_at ≤ b.created_at)
      (notification_order [⟨"old", 0, "A", 100⟩, ⟨"new", 1, "B", 200⟩]) := by
  decide

/-- Claim C4 as amended: the notifier emits the per-transaction lines in
the reverse of the order it is given, so the emission is chronological
(oldest first) exactly when the new set arrives newest-first, the order
in which the remote feed supplies it. -/
theorem notify_order_reverse_chronological (ts : List Transaction)
    (hsorted : List.Sorted (fun a b : Transaction => b.created_at ≤ a.created_at) ts) :
    notification_order ts = ts.reverse
    ∧ List.Sorted (fun a b : Transaction => a.created_at ≤ b.created_at)
        (notification_order ts) := by
  refine ⟨rfl, ?_⟩
  unfold notification_order
  exact List.pairwise_reverse.2 hsorted

/-- Witness for the amended C4 at a concrete input: a newest-first pair
is emitted oldest-first. -/
theorem notify_order_reverse_chronological_witness :
    notification_order [⟨"new", 5, "B", 200⟩, ⟨"old", 1, "A", 100⟩]
        = ([⟨"new", 5, "B", 200⟩, ⟨"old", 1, "A", 100⟩] : List Transaction).reverse
    ∧ List.Sorted (fun a b : Transaction => a.created_at ≤ b.created_at)
        (notification_order [⟨"new", 5, "B", 200⟩, ⟨"old", 1, "A", 100⟩]) :=
  notify_order_reverse_chronological _ (by decide)

/-- Helper: a column absent from the column list makes `df[c]` raise. -/
theorem getCol_absent (df : DFrame) (c : String)
    (h : df.columns.contains c = false) :
    DFrame.getCol df c = Except.error ("KeyError: " ++ c) := by
  unfold DFrame.getCol
  rw [h]
  simp

/-- Claim C10: with an empty remote frame the Differ returns the empty
frame without demanding any column of `known` — for every `known`, even
one lacking an `id` column — while a nonempty remote frame paired with a
`known` frame lacking its `id` column makes the call raise. -/
theorem differ_empty_remote_ignores_known (left known : DFrame) :
    find_new_transactions_df (DFrame.mk [] []) known = Except.ok (DFrame.mk [] [])
    ∧ (DFrame.empty left = false → known.columns.contains "id" = false →
        ∃ e, find_new_transactions_df left known = Except.error e) := by
  constructor
  · rfl
  · intro hle hkid
    unfold find_new_transactions_df
    rw [hle]
    simp only [Bool.false_eq_true, if_false]
    cases hl : DFrame.getCol left "id" with
    | error e => exact ⟨e, rfl⟩
    | ok lids =>
      rw [getCol_absent known "id" hkid]
      exact ⟨_, rfl⟩

/-- Witness for C10 at concrete inputs: the empty frame against a known
frame with no `id` column succeeds with an empty result, while a
one-row remote frame against the same known frame raises. -/
theorem differ_empty_remote_ignores_known_witness :
    find_new_transactions_df (DFrame.mk [] [])
        (DFrame.mk ["created_at"] [[PValue.int 7]])
      = Except.ok (DFrame.mk [] [])
    ∧ ∃ e, find_new_transactions_df
        (DFrame.mk ["id"] [[PValue.str "a"]])
        (DFrame.mk ["created_at"] [[PValue.int 7]]) = Except.error e :=
  ⟨(differ_empty_remote_ignores_known (DFrame.mk ["id"] [[PValue.str "a"]])
      (DFrame.mk ["created_at"] [[PValue.int 7]])).1,
   (differ_empty_remote_ignores_known (DFrame.mk ["id"] [[PValue.str "a"]])
      (DFrame.mk ["created_at"] [[PValue.int 7]])).2 (by decide) (by decide)⟩
